import Mathlib

/-!
Shallow embedding of the LLM security gateway (Python sources under `src/`)
and verification of the specification claims against it.

Regex matching (`re.finditer` / `re.findall`) is an external library; the
scanners are therefore parameterised by the match results the library
reports (one entry per pattern of the static tables, in table order).
Everything downstream of the match results is embedded faithfully.
Fractional quantities that Python stores as floats are modelled as
rationals; `round(x, n)` is modelled as round-half-up at `n` decimals.
-/

namespace Gateway

/-- The settings fields consulted by the security pipeline
(`src/config/settings.py`). -/
structure Settings where
  pii_action : String
  response_pii_action : String
  injection_threshold : ℚ
deriving DecidableEq

/-- Round-half-up at one decimal: model of Python `round(x, 1)`
(`src/security/ratelimit.py`). -/
def round1 (q : ℚ) : ℚ := (⌊q * 10 + 1/2⌋ : ℚ) / 10

/-- Round-half-up at two decimals: model of Python `round(x, 2)`
(`src/security/injection.py`). -/
def round2 (q : ℚ) : ℚ := (⌊q * 100 + 1/2⌋ : ℚ) / 100

/-! ## PII scanner (`src/security/pii.py`) -/

/-- The `(pii_type, placeholder)` columns of `_PII_PATTERNS`, in table
order.  The regex column stays with the `re` library; scan functions take
the per-pattern match lists as an argument. -/
def piiPatternTable : List (String × String) :=
  [("SSN", "[REDACTED_SSN]"),
   ("CREDIT_CARD", "[REDACTED_CC]"),
   ("EMAIL", "[REDACTED_EMAIL]"),
   ("PHONE", "[REDACTED_PHONE]"),
   ("IP_ADDRESS", "[REDACTED_IP]")]

/-- Python `str.strip()`: drop whitespace from both ends.  (Core
`String.trim` is avoided: it does not reduce inside the kernel.) -/
def pyStrip (s : String) : String :=
  ⟨((s.data.dropWhile Char.isWhitespace).reverse.dropWhile
      Char.isWhitespace).reverse⟩

/-- Python `str.lower()` on the ASCII range. -/
def pyLower (s : String) : String := ⟨s.data.map Char.toLower⟩

/-- Python `sep.join(items)`. -/
def joinSep (sep : String) : List String → String
  | [] => ""
  | [a] => a
  | a :: rest => a ++ sep ++ joinSep sep rest

/-- `_luhn_check` from `src/security/pii.py`: digit filter, length window
13–19, double every second digit from the right, checksum mod 10. -/
def luhn_check (number : String) : Bool :=
  let digits := (number.data.filter Char.isDigit).map (fun c => c.toNat - 48)
  if digits.length < 13 ∨ digits.length > 19 then false
  else
    let reverse := digits.reverse
    let checksum := (reverse.enum.map (fun p =>
      if p.1 % 2 == 1 then
        let d := p.2 * 2
        if d > 9 then d - 9 else d
      else p.2)).foldl (· + ·) 0
    checksum % 10 == 0

/-- Python `s.replace(old, sub, 1)` for non-empty `old`: replace the first
occurrence of `old` in `s` by `sub`, leave `s` unchanged when absent. -/
def replaceFirstChars (old sub : List Char) : List Char → List Char
  | [] => []
  | c :: rest =>
      if old.isPrefixOf (c :: rest) then sub ++ (c :: rest).drop old.length
      else c :: replaceFirstChars old sub rest

def replaceFirst (s old sub : String) : String :=
  ⟨replaceFirstChars old.data sub.data s.data⟩

/-- `PIIResult` from `src/security/pii.py`. -/
structure PIIResult where
  clean : Bool
  detections : List String
  redacted_content : Option String
  detection_count : ℕ
deriving DecidableEq

/-- One pattern row of the `scan_for_pii` loop: fold the pattern's matches
(in match order) into the `(detections, redacted, total)` state, skipping
CREDIT_CARD matches that fail Luhn. -/
def piiStep (st : List String × String × ℕ)
    (pm : (String × String) × List String) : List String × String × ℕ :=
  pm.2.foldl (fun st2 matched_text =>
    if pm.1.1 = "CREDIT_CARD" ∧ ¬ luhn_check matched_text then st2
    else
      (if pm.1.1 ∈ st2.1 then st2.1 else st2.1 ++ [pm.1.1],
       replaceFirst st2.2.1 matched_text pm.1.2,
       st2.2.2 + 1)) st

/-- `scan_for_pii` from `src/security/pii.py`, parameterised by the
`finditer` results (matched texts per pattern, in table order). -/
def scan_for_pii (s : Settings) (content : String)
    (piiMatches : List (List String)) : PIIResult :=
  if pyStrip content = "" then ⟨true, [], none, 0⟩
  else
    let res := (piiPatternTable.zip piiMatches).foldl piiStep ([], content, 0)
    let detections := res.1
    let redacted := res.2.1
    let total := res.2.2
    if detections = [] then ⟨true, [], none, 0⟩
    else
      let action := pyLower s.pii_action
      if action = "block" then ⟨false, detections, none, total⟩
      else if action = "redact" then ⟨false, detections, some redacted, total⟩
      else ⟨true, detections, none, total⟩

/-! ## Injection scanner (`src/security/injection.py`) -/

/-- The `(weight, category)` columns of `_PATTERNS`, in table order. -/
def injPatternTable : List (ℚ × String) :=
  [(5/10, "instruction_override"),
   (5/10, "instruction_override"),
   (5/10, "instruction_override"),
   (5/10, "instruction_override"),
   (4/10, "instruction_override"),
   (3/10, "instruction_override"),
   (4/10, "role_manipulation"),
   (5/10, "role_manipulation"),
   (5/10, "role_manipulation"),
   (6/10, "role_manipulation"),
   (7/10, "role_manipulation"),
   (5/10, "role_manipulation"),
   (6/10, "delimiter_injection"),
   (4/10, "delimiter_injection"),
   (3/10, "delimiter_injection"),
   (3/10, "delimiter_injection"),
   (5/10, "context_manipulation"),
   (5/10, "context_manipulation"),
   (6/10, "context_manipulation"),
   (5/10, "context_manipulation")]

/-- `ScanResult` from `src/security/injection.py`. -/
structure ScanResult where
  allowed : Bool
  risk_score : ℚ
  reason : String
  matched_categories : List String
deriving DecidableEq

/-- `scan_prompt` from `src/security/injection.py`, parameterised by the
`findall` hit counts (one per pattern, in table order). -/
def scan_prompt (s : Settings) (content : String) (hits : List ℕ) : ScanResult :=
  if pyStrip content = "" then ⟨true, 0, "empty", []⟩
  else
    let pairs := injPatternTable.zip hits
    let total : ℚ := pairs.foldl (fun acc p => acc + p.1.1 * (p.2 : ℚ)) 0
    let matched := pairs.foldl
      (fun acc p => if p.2 ≠ 0 ∧ p.1.2 ∉ acc then acc ++ [p.1.2] else acc) []
    let display := round2 (min total 1)
    if s.injection_threshold ≤ total then
      ⟨false, display, "Injection detected: " ++ joinSep ", " matched,
        matched⟩
    else
      ⟨true, display,
        if matched = [] then "pass"
        else "Low-risk patterns: " ++ joinSep ", " matched,
        matched⟩

/-! ## Response scanner (`src/security/response.py`) -/

/-- `ResponseScanResult` from `src/security/response.py`. -/
structure ResponseScanResult where
  injection : ScanResult
  pii : PIIResult
  blocked : Bool
deriving DecidableEq

/-- `scan_response` from `src/security/response.py`: run both scanners on
the content; `blocked` requires the `response_pii_action` setting to be
`"block"`, a non-clean PII result, and a positive detection count. -/
def scan_response (s : Settings) (content : String) (injHits : List ℕ)
    (piiMatches : List (List String)) : ResponseScanResult :=
  let injection_result := scan_prompt s content injHits
  let pii_result := scan_for_pii s content piiMatches
  let blocked := (s.response_pii_action == "block") && (! pii_result.clean)
      && decide (0 < pii_result.detection_count)
  ⟨injection_result, pii_result, blocked⟩

/-! ## Rate limiter (`src/security/ratelimit.py`) -/

/-- `RateLimitResult` from `src/security/ratelimit.py`. -/
structure RateLimitResult where
  allowed : Bool
  limit : ℤ
  remaining : ℤ
  reset_seconds : ℚ
deriving DecidableEq

def WINDOW_SECONDS : ℚ := 60

/-- The prune loop of `check_rate_limit`: pop timestamps from the left
while they are older than the window start. -/
def pruneWindow (window_start : ℚ) : List ℚ → List ℚ
  | [] => []
  | t :: rest => if t < window_start then pruneWindow window_start rest
                 else t :: rest

/-- `check_rate_limit` from `src/security/ratelimit.py` on one client's
window.  `now` is the monotonic clock reading; the result pairs the
returned `RateLimitResult` with the window left behind.  Indexing the
empty deque (`window[0]`) is modelled as `Except.error`. -/
def check_rate_limit (now : ℚ) (limit : ℤ) (window : List ℚ) :
    Except Unit (RateLimitResult × List ℚ) :=
  let window_start := now - WINDOW_SECONDS
  let pruned := pruneWindow window_start window
  if limit ≤ (pruned.length : ℤ) then
    match pruned.head? with
    | none => .error ()
    | some h =>
        .ok (⟨false, limit, 0, round1 (h + WINDOW_SECONDS - now)⟩, pruned)
  else
    let w2 := pruned ++ [now]
    let reset := match w2.head? with
      | some h => h + WINDOW_SECONDS - now
      | none => WINDOW_SECONDS
    .ok (⟨true, limit, max 0 (limit - (w2.length : ℤ)), round1 reset⟩, w2)

/-! ## Chat messages and request bodies -/

/-- One element of a list-valued (multi-part) message content. -/
structure ContentPart where
  ptype : String
  text : String
deriving DecidableEq

/-- A message `content` value: a plain string or a multi-part list. -/
inductive MsgContent where
  | str (s : String)
  | parts (l : List ContentPart)
deriving DecidableEq

/-- A chat message `{role, content}`. -/
structure Message where
  role : String
  content : MsgContent
deriving DecidableEq

/-- The request-body fields the gateway consumes.  `Option` fields model
key presence in the JSON object; `stream` defaults to `false` via
`body.get("stream", False)`. -/
structure ChatBody where
  messages : List Message
  model : Option String
  stream : Bool
  temperature : Option ℚ
  max_tokens : Option ℤ
  top_p : Option ℚ
  stop : Option (List String)
deriving DecidableEq

/-! ## Bedrock translator (`src/providers/bedrock.py`) -/

/-- The `inferenceConfig` dict assembled by `_translate_request`; each
field models presence of the corresponding key. -/
structure InferenceConfig where
  temperature : Option ℚ
  maxTokens : Option ℤ
  topP : Option ℚ
  stopSequences : Option (List String)
deriving DecidableEq

/-- One entry of the Converse `messages` list: role kept, content wrapped
as a list of `{text: ...}` blocks (the original content sits under the
`text` key unchanged). -/
structure BedrockMessage where
  role : String
  content : List MsgContent
deriving DecidableEq

/-- The Converse parameter dict built by `_translate_request`; `system`
and `inferenceConfig` model key presence with `Option`. -/
structure BedrockRequest where
  modelId : String
  system : Option (List MsgContent)
  messages : List BedrockMessage
  inferenceConfig : Option InferenceConfig
deriving DecidableEq

/-- `BedrockProvider._translate_request`: one pass over the messages
splits system messages from the rest, then the inference keys present in
the body are mapped over. -/
def translate_request (body : ChatBody) (model_id : String) : BedrockRequest :=
  let split := body.messages.foldl
    (fun acc m =>
      if m.role = "system" then (acc.1 ++ [m.content], acc.2)
      else (acc.1, acc.2 ++ [BedrockMessage.mk m.role [m.content]]))
    ([], [])
  let inference_config : InferenceConfig :=
    ⟨body.temperature, body.max_tokens, body.top_p, body.stop⟩
  { modelId := model_id
    system := if split.1 = [] then none else some split.1
    messages := split.2
    inferenceConfig :=
      if body.temperature = none ∧ body.max_tokens = none ∧
         body.top_p = none ∧ body.stop = none
      then none
      else some inference_config }

/-- The translator as §4.6 of the spec words it: partition the messages
by `role = system`, wrap, and include only the inference keys present. -/
def translate_request_spec (body : ChatBody) (model_id : String) :
    BedrockRequest :=
  let p := body.messages.partition (fun m => m.role = "system")
  { modelId := model_id
    system := if p.1 = [] then none else some (p.1.map (·.content))
    messages := p.2.map (fun m => BedrockMessage.mk m.role [m.content])
    inferenceConfig :=
      if body.temperature = none ∧ body.max_tokens = none ∧
         body.top_p = none ∧ body.stop = none
      then none
      else some ⟨body.temperature, body.max_tokens, body.top_p, body.stop⟩ }

/-! ## Provider streaming (`src/providers/bedrock.py`, `openai.py`) -/

/-- An upstream Bedrock `ConverseStream` event, reduced to the keys the
provider inspects.  `contentBlockDelta` carries
`event["contentBlockDelta"]["delta"]["text"]` (default `""`). -/
inductive BEvent where
  | contentBlockDelta (text : String)
  | messageStop (stopReason : String)
  | other
deriving DecidableEq

/-- The chat-completion-chunk object Bedrock streaming serialises into
`StreamChunk.data` (`object` and `index` are constants; `deltaContent`
and `finishReason` model the varying `delta` / `finish_reason` fields). -/
structure BedrockChunkBody where
  id : String
  model : String
  deltaContent : Option String
  finishReason : Option String
deriving DecidableEq

/-- A `StreamChunk.data` value: the raw SSE payload string (OpenAI), a
serialised Bedrock chunk object, or the literal `"[DONE]"`. -/
inductive ChunkData where
  | raw (s : String)
  | bchunk (b : BedrockChunkBody)
  | done
deriving DecidableEq

/-- `StreamChunk` from `src/providers/base.py`. -/
structure StreamChunk where
  data : ChunkData
  is_done : Bool
  text_delta : String
deriving DecidableEq

/-- `BedrockProvider.chat_completion_stream`, from the event loop on: for
a delta event emit a content chunk, on `messageStop` emit the
finish-reason chunk then the `[DONE]` terminal chunk and return, skip
other events. -/
def bedrockStreamChunks (model_id chunk_id : String) :
    List BEvent → List StreamChunk
  | [] => []
  | .contentBlockDelta t :: rest =>
      ⟨.bchunk ⟨chunk_id, model_id, some t, none⟩, false, t⟩ ::
        bedrockStreamChunks model_id chunk_id rest
  | .messageStop sr :: _ =>
      [⟨.bchunk ⟨chunk_id, model_id, none,
          some (if sr = "max_tokens" then "length" else "stop")⟩, false, ""⟩,
       ⟨.done, true, ""⟩]
  | .other :: rest => bedrockStreamChunks model_id chunk_id rest

/-- `OpenAIProvider.chat_completion_stream`, from the line loop on:
strip each SSE line, skip blanks and non-`data:` lines, terminate on the
`[DONE]` payload; otherwise emit the raw payload with the text delta the
JSON decoder (modelled by `extractDelta`) pulls from
`choices[0].delta.content`. -/
def openaiStreamChunks (extractDelta : String → String) :
    List String → List StreamChunk
  | [] => []
  | line :: rest =>
      let l := pyStrip line
      if l = "" ∨ ¬ "data:".data.isPrefixOf l.data then
        openaiStreamChunks extractDelta rest
      else
        let payload := pyStrip ⟨l.data.drop 5⟩
        if payload = "[DONE]" then [⟨.done, true, ""⟩]
        else ⟨.raw payload, false, extractDelta payload⟩ ::
          openaiStreamChunks extractDelta rest

/-! ## Client store (`src/clients/models.py`, `src/clients/store.py`) -/

/-- `ClientConfig` from `src/clients/models.py`. -/
structure ClientConfig where
  client_id : String
  api_key : String
  provider : String := "openai"
  rate_limit_rpm : ℤ := 60
  model_allowlist : List String := []
  upstream_api_key : String := ""
  bedrock_model_id : String := ""
  status : String := "active"
deriving DecidableEq

/-- The mutable fields of `JSONClientStore`. -/
structure JSONStoreState where
  clients : List ClientConfig
  last_mtime : ℚ
deriving DecidableEq

/-- Observable state of the backing file: `none` when `os.path.getmtime`
raises `OSError` (file missing), `some (mtime, none)` when the file
exists but `json.load` fails on it, `some (mtime, some records)` when it
parses into records. -/
def ClientsFile := Option (ℚ × Option (List ClientConfig))

/-- `JSONClientStore._load`: a stat failure empties the record list; an
unchanged mtime with a non-empty cache skips the reload; otherwise the
file is opened and parsed, and a parse failure propagates
(`Except.error`). -/
def store_load (file : ClientsFile) (st : JSONStoreState) :
    Except Unit JSONStoreState :=
  match file with
  | none => .ok ⟨[], st.last_mtime⟩
  | some (mtime, parsed) =>
      if mtime = st.last_mtime ∧ st.clients ≠ [] then .ok st
      else
        match parsed with
        | none => .error ()
        | some data => .ok ⟨data, mtime⟩

/-- `JSONClientStore.get_by_api_key`: reload, then iterate every record
(constant-time comparison modelled as string equality), keeping the last
match. -/
def get_by_api_key (file : ClientsFile) (st : JSONStoreState)
    (api_key : String) : Except Unit (Option ClientConfig × JSONStoreState) :=
  match store_load file st with
  | .error e => .error e
  | .ok st2 =>
      let found := st2.clients.foldl
        (fun acc c => if api_key = c.api_key then some c else acc) none
      .ok (found, st2)

/-! ## Request pipeline (`src/main.py`) -/

/-- `_extract_prompt_content`: newline-join the string contents and the
`type=="text"` parts of list contents, over all messages. -/
def extract_prompt_content (msgs : List Message) : String :=
  joinSep "\n" (msgs.foldl (fun parts m =>
    match m.content with
    | .str s => parts ++ [s]
    | .parts l =>
        parts ++ (l.filter (fun p => p.ptype = "text")).map (·.text)) [])

/-- The reversed-iteration loop of `_replace_prompt_content`: set the
content of the first user message encountered to the redacted string and
stop. -/
def replaceFirstUser (redacted : String) : List Message → List Message
  | [] => []
  | m :: rest =>
      if m.role = "user" then { m with content := .str redacted } :: rest
      else m :: replaceFirstUser redacted rest

/-- `_replace_prompt_content`: replace the last user message's content
with the redacted text (as a plain string). -/
def replace_prompt_content (msgs : List Message) (redacted : String) :
    List Message :=
  (replaceFirstUser redacted msgs.reverse).reverse

/-- Python `int(q)` on a float/rational: truncation toward zero. -/
def pyInt (q : ℚ) : ℤ := if q < 0 then -((-q).floor) else q.floor

/-- The rate-limit headers attached to dispatched responses. -/
def rlHeaders (rate : RateLimitResult) : List (String × String) :=
  [("X-RateLimit-Limit", toString rate.limit),
   ("X-RateLimit-Remaining", toString rate.remaining),
   ("X-RateLimit-Reset", toString (pyInt rate.reset_seconds))]

/-- The observable response of the `chat_completions` endpoint before the
body is streamed: status, explicit headers, whether it is an SSE
streaming response, the `{"error": ...}` message when the body is an
error object (none = upstream body passthrough), the body forwarded
upstream when dispatch was reached, and the request id carried by every
audit entry this request emits (the context variable is set to it before
any logging). -/
structure GatewayResponse where
  status : ℤ
  headers : List (String × String)
  is_sse : Bool
  errorMsg : Option String
  forwarded : Option ChatBody
  audit_request_id : String
deriving DecidableEq

/-- The `chat_completions` endpoint of `src/main.py` after authentication,
parameterised by its collaborators' outcomes: the rate-limit result for
this client, the per-pattern scanner match results for the prompt and the
extracted upstream response text, the Lambda environment flag, and the
upstream response status. -/
def chat_completions (s : Settings) (rid : String) (client : ClientConfig)
    (body : ChatBody) (rate : RateLimitResult) (injHits : List ℕ)
    (piiMatches : List (List String)) (is_lambda : Bool)
    (upstream_status : ℤ) (respContent : String) (respInjHits : List ℕ)
    (respPiiMatches : List (List String)) : GatewayResponse :=
  let model := body.model.getD "unknown"
  let is_stream := body.stream
  if rate.allowed = false then
    { status := 429
      headers := [("Retry-After", toString (pyInt rate.reset_seconds)),
                  ("X-RateLimit-Limit", toString rate.limit),
                  ("X-RateLimit-Remaining", "0"),
                  ("X-RateLimit-Reset", toString (pyInt rate.reset_seconds))]
      is_sse := false
      errorMsg := some "Rate limit exceeded"
      forwarded := none
      audit_request_id := rid }
  else if client.model_allowlist ≠ [] ∧ model ∉ client.model_allowlist then
    { status := 403, headers := [], is_sse := false
      errorMsg := some ("Model '" ++ model ++ "' not allowed for this client")
      forwarded := none, audit_request_id := rid }
  else
    let prompt_content := extract_prompt_content body.messages
    let injection_result := scan_prompt s prompt_content injHits
    if injection_result.allowed = false then
      { status := 400, headers := [], is_sse := false
        errorMsg := some "Request blocked by security policy"
        forwarded := none, audit_request_id := rid }
    else
      let pii_result := scan_for_pii s prompt_content piiMatches
      if pii_result.clean = false ∧ pii_result.redacted_content = none ∧
         0 < pii_result.detection_count ∧ s.pii_action = "block" then
        { status := 400, headers := [], is_sse := false
          errorMsg := some "Request contains sensitive data (PII)"
          forwarded := none, audit_request_id := rid }
      else
        let body2 := match pii_result.redacted_content with
          | some r =>
              if r ≠ "" then
                { body with messages := replace_prompt_content body.messages r }
              else body
          | none => body
        if is_stream ∧ is_lambda then
          { status := 400, headers := [], is_sse := false
            errorMsg := some "Streaming is not supported in Lambda deployments"
            forwarded := none, audit_request_id := rid }
        else if is_stream then
          { status := 200
            headers := rlHeaders rate ++
              [("X-Request-Id", rid), ("Cache-Control", "no-cache")]
            is_sse := true, errorMsg := none
            forwarded := some body2, audit_request_id := rid }
        else
          let response_scan :=
            scan_response s respContent respInjHits respPiiMatches
          if response_scan.blocked then
            { status := 400, headers := [], is_sse := false
              errorMsg :=
                some "Response blocked by security policy — contains sensitive data"
              forwarded := some body2, audit_request_id := rid }
          else
            { status := upstream_status
              headers := rlHeaders rate ++ [("X-Request-Id", rid)]
              is_sse := false, errorMsg := none
              forwarded := some body2, audit_request_id := rid }

/-! ## Claim C3 — PIIResult invariant -/

/-- C3 (counterexample): in `log_only` mode a detected email yields
`clean = true` together with `detection_count = 1`, refuting
`clean ⇒ detectionCount = 0`. -/
theorem C3_counterexample :
    scan_for_pii ⟨"log_only", "log_only", 7/10⟩ "Email: a@b.co"
        [[], [], ["a@b.co"], [], []]
      = ⟨true, ["EMAIL"], none, 1⟩ ∧ (1 : ℕ) ≠ 0 := by
  exact ⟨by decide, by decide⟩

/-- C3 (amended): for every input text, PII action mode and match
results, if the returned `PIIResult` has `clean = true` then
`redacted_content` is absent; the detection count, however, may be
positive (`log_only` mode). -/
theorem C3_clean_no_redacted (s : Settings) (content : String)
    (pm : List (List String)) :
    (scan_for_pii s content pm).clean = true →
    (scan_for_pii s content pm).redacted_content = none := by
  unfold scan_for_pii
  split
  · intro _; rfl
  · dsimp only
    split
    · intro _; rfl
    · split
      · intro h; exact absurd h (by simp)
      · split
        · intro h; exact absurd h (by simp)
        · intro _; rfl

/-- C3 (witness): the amended theorem applied at a concrete clean scan. -/
theorem C3_witness :
    (scan_for_pii ⟨"redact", "log_only", 7/10⟩ "hello"
        [[], [], [], [], []]).redacted_content = none :=
  C3_clean_no_redacted ⟨"redact", "log_only", 7/10⟩ "hello"
    [[], [], [], [], []] (by decide)

/-! ## Claim C1 — response scanner blocking condition -/

/-- C1 (counterexample): with the request-side PII action `log_only` and
the response PII action `block`, a response containing an email address
yields one detection yet `blocked = false`, refuting
`blocked ⟺ responsePiiAction = "block" ∧ detections > 0`. -/
theorem C1_counterexample :
    (scan_response ⟨"log_only", "block", 7/10⟩ "a@b.co"
        (List.replicate 20 0) [[], [], ["a@b.co"], [], []]).blocked = false ∧
    (Settings.mk "log_only" "block" (7/10)).response_pii_action = "block" ∧
    0 < (scan_response ⟨"log_only", "block", 7/10⟩ "a@b.co"
        (List.replicate 20 0) [[], [], ["a@b.co"], [], []]).pii.detection_count := by
  exact ⟨by decide, by decide, by decide⟩

/-- C1 (amended): the response scanner blocks iff the response PII action
is `"block"`, the PII scan is not clean, and the detection count is
positive; since the PII scan's `clean` flag follows the request-side
`pii_action` (always `true` under `log_only`), a `"block"` response
action alone does not suffice.  Injection findings never contribute:
`blocked` is unchanged under any change of the injection hit counts. -/
theorem C1_blocked_iff (s : Settings) (content : String) (ih : List ℕ)
    (pm : List (List String)) :
    ((scan_response s content ih pm).blocked = true ↔
      (s.response_pii_action = "block" ∧
        (scan_for_pii s content pm).clean = false ∧
        0 < (scan_for_pii s content pm).detection_count)) ∧
    (∀ ih2 : List ℕ,
      (scan_response s content ih pm).blocked
        = (scan_response s content ih2 pm).blocked) := by
  constructor
  · simp [scan_response, Bool.and_eq_true, decide_eq_true_eq, and_assoc]
  · intro ih2; rfl

/-! ## Claim C9 — injection scanner -/

/-- The cumulative score as the spec words it: the sum over the pattern
table of weight times occurrence count. -/
def injTotalScore (hits : List ℕ) : ℚ :=
  ((injPatternTable.zip hits).map (fun p => p.1.1 * (p.2 : ℚ))).sum

lemma foldl_add_mul (l : List ((ℚ × String) × ℕ)) (a : ℚ) :
    l.foldl (fun acc p => acc + p.1.1 * (p.2 : ℚ)) a
      = a + (l.map (fun p => p.1.1 * (p.2 : ℚ))).sum := by
  induction l generalizing a with
  | nil => simp
  | cons x xs ih => simp [ih, add_assoc]

lemma injTotalScore_nonneg (hits : List ℕ) : 0 ≤ injTotalScore hits := by
  apply List.sum_nonneg
  intro x hx
  simp only [List.mem_map] at hx
  obtain ⟨p, hp, rfl⟩ := hx
  have hw : p.1 ∈ injPatternTable := (List.of_mem_zip hp).1
  have h0 : 0 ≤ p.1.1 := by
    simp only [injPatternTable, List.mem_cons, List.not_mem_nil, or_false] at hw
    rcases hw with h|h|h|h|h|h|h|h|h|h|h|h|h|h|h|h|h|h|h|h <;>
      rw [h] <;> norm_num
  positivity

lemma round2_nonneg {q : ℚ} (h : 0 ≤ q) : 0 ≤ round2 q := by
  unfold round2
  have h1 : (0 : ℤ) ≤ ⌊q * 100 + 1/2⌋ := Int.floor_nonneg.mpr (by linarith)
  have h2 : (0 : ℚ) ≤ (⌊q * 100 + 1/2⌋ : ℚ) := by exact_mod_cast h1
  linarith

lemma round2_le_one {q : ℚ} (h : q ≤ 1) : round2 q ≤ 1 := by
  unfold round2
  have h1 : ⌊q * 100 + 1/2⌋ ≤ (100 : ℤ) := by
    have hm : (q * 100 + 1/2 : ℚ) ≤ 201/2 := by linarith
    have hmono := Int.floor_mono hm
    have h201 : ⌊(201/2 : ℚ)⌋ = (100 : ℤ) := by norm_num
    omega
  have h2 : (⌊q * 100 + 1/2⌋ : ℚ) ≤ 100 := by exact_mod_cast h1
  rw [div_le_one (by norm_num)]
  exact h2

/-- C9 (theorem): for every content and hit-count vector, empty or
whitespace-only content passes with score 0; otherwise the scanner
blocks exactly when the cumulative score (the sum of weight times count
over the pattern table, unclamped) reaches the threshold, and the
displayed risk score is the cumulative score clamped to `[0, 1]` and
rounded to two decimals. -/
theorem C9_scan_prompt_spec (s : Settings) (content : String)
    (hits : List ℕ) :
    (pyStrip content = "" → scan_prompt s content hits = ⟨true, 0, "empty", []⟩) ∧
    (pyStrip content ≠ "" →
      ((scan_prompt s content hits).allowed = false ↔
        s.injection_threshold ≤ injTotalScore hits) ∧
      (scan_prompt s content hits).risk_score
        = round2 (min (injTotalScore hits) 1) ∧
      0 ≤ (scan_prompt s content hits).risk_score ∧
      (scan_prompt s content hits).risk_score ≤ 1) := by
  constructor
  · intro h
    unfold scan_prompt
    rw [if_pos h]
  · intro h
    have hsc : 0 ≤ injTotalScore hits := injTotalScore_nonneg hits
    unfold scan_prompt
    rw [if_neg h]
    simp only [foldl_add_mul, zero_add]
    have htot :
        ((injPatternTable.zip hits).map (fun p => p.1.1 * (p.2 : ℚ))).sum
          = injTotalScore hits := rfl
    rw [htot]
    split
    · refine ⟨by simp [*], rfl, round2_nonneg ?_, round2_le_one ?_⟩
      · exact le_min hsc (by norm_num)
      · exact min_le_right _ _
    · refine ⟨by simp [*], rfl, round2_nonneg ?_, round2_le_one ?_⟩
      · exact le_min hsc (by norm_num)
      · exact min_le_right _ _

/-- C9 (witness): the theorem instantiated on whitespace content and on a
single `jailbreak` hit at threshold 0.7. -/
theorem C9_witness :
    scan_prompt ⟨"redact", "log_only", 7/10⟩ "   " [] = ⟨true, 0, "empty", []⟩ ∧
    ((scan_prompt ⟨"redact", "log_only", 7/10⟩ "jailbreak"
        [0, 0, 0, 0, 0, 0, 0, 0, 0, 0, 1, 0, 0, 0, 0, 0, 0, 0, 0, 0]).allowed
        = false ↔
      (7/10 : ℚ) ≤ injTotalScore
        [0, 0, 0, 0, 0, 0, 0, 0, 0, 0, 1, 0, 0, 0, 0, 0, 0, 0, 0, 0]) :=
  ⟨(C9_scan_prompt_spec ⟨"redact", "log_only", 7/10⟩ "   " []).1 (by decide),
   ((C9_scan_prompt_spec ⟨"redact", "log_only", 7/10⟩ "jailbreak"
      [0, 0, 0, 0, 0, 0, 0, 0, 0, 0, 1, 0, 0, 0, 0, 0, 0, 0, 0, 0]).2
      (by decide)).1⟩

/-! ## Claim C7 — Bedrock request translator -/

lemma translateFold (msgs : List Message) (a : List MsgContent)
    (b : List BedrockMessage) :
    msgs.foldl (fun acc m =>
        if m.role = "system" then (acc.1 ++ [m.content], acc.2)
        else (acc.1, acc.2 ++ [BedrockMessage.mk m.role [m.content]])) (a, b)
      = (a ++ (msgs.filter (fun m => m.role = "system")).map (·.content),
         b ++ (msgs.filter (fun m => ¬ m.role = "system")).map
              (fun m => BedrockMessage.mk m.role [m.content])) := by
  induction msgs generalizing a b with
  | nil => simp
  | cons x xs ih =>
      by_cases hx : x.role = "system" <;>
        simp [hx, ih, List.filter_cons]

/-- C7 (theorem): for every chat body and non-empty model id, the Bedrock
request translator produces exactly the spec's shape — top-level
`modelId`; the system messages in order (omitted when none); the
remaining messages in order with role kept and content wrapped; and an
`inferenceConfig` carrying exactly the input's optional inference keys
(omitted when none are present). -/
theorem C7_translate_request_correct (body : ChatBody) (model_id : String)
    (h : model_id ≠ "") :
    translate_request body model_id = translate_request_spec body model_id := by
  unfold translate_request translate_request_spec
  rw [translateFold]
  simp only [List.partition_eq_filter_filter, List.nil_append,
    List.map_eq_nil_iff, decide_not, Function.comp_def]

/-- C7 (witness): the spec's scenario S5 — a system and a user message
with `temperature` and `max_tokens` set. -/
theorem C7_witness :
    translate_request
        ⟨[⟨"system", .str "You are helpful."⟩, ⟨"user", .str "Hello"⟩],
         none, false, some (1/2), some 100, none, none⟩
        "anthropic.claude-3-sonnet"
      = translate_request_spec
        ⟨[⟨"system", .str "You are helpful."⟩, ⟨"user", .str "Hello"⟩],
         none, false, some (1/2), some 100, none, none⟩
        "anthropic.claude-3-sonnet" ∧
    translate_request
        ⟨[⟨"system", .str "You are helpful."⟩, ⟨"user", .str "Hello"⟩],
         none, false, some (1/2), some 100, none, none⟩
        "anthropic.claude-3-sonnet"
      = ⟨"anthropic.claude-3-sonnet", some [.str "You are helpful."],
         [⟨"user", [.str "Hello"]⟩], some ⟨some (1/2), some 100, none, none⟩⟩ :=
  ⟨C7_translate_request_correct _ _ (by decide), by rfl⟩

/-! ## Claim C2 — stream termination -/

/-- An SSE line whose payload is the `[DONE]` terminator, as the OpenAI
stream loop recognises it. -/
def sseDoneLine (line : String) : Prop :=
  pyStrip line ≠ "" ∧
  "data:".data.isPrefixOf (pyStrip line).data = true ∧
  pyStrip ⟨(pyStrip line).data.drop 5⟩ = "[DONE]"

instance (line : String) : Decidable (sseDoneLine line) := by
  unfold sseDoneLine; infer_instance

/-- C2 (counterexample): on an upstream Bedrock event sequence with no
`messageStop` event — here the empty sequence — the produced chunk
sequence has no terminal chunk at all, refuting the claim that the last
chunk always has `isDone = true` and `data = "[DONE]"`. -/
theorem C2_counterexample :
    ¬ ∃ c : StreamChunk,
      (bedrockStreamChunks "anthropic.claude-3-sonnet" "bedrock-0" []).getLast?
        = some c ∧ c.is_done = true ∧ c.data = ChunkData.done := by
  rintro ⟨c, hc, -, -⟩
  simp [bedrockStreamChunks] at hc

lemma bedrock_terminal (model_id chunk_id : String) :
    ∀ events : List BEvent, (∃ sr, BEvent.messageStop sr ∈ events) →
      (bedrockStreamChunks model_id chunk_id events).getLast?
        = some ⟨ChunkData.done, true, ""⟩ := by
  intro events
  induction events with
  | nil => rintro ⟨sr, hsr⟩; simp at hsr
  | cons e rest ih =>
      rintro ⟨sr, hsr⟩
      cases e with
      | contentBlockDelta t =>
          have hm : BEvent.messageStop sr ∈ rest := by
            rcases List.mem_cons.mp hsr with h1 | h1
            · exact absurd h1 (by simp)
            · exact h1
          have hrec := ih ⟨sr, hm⟩
          rw [bedrockStreamChunks]
          cases hq : bedrockStreamChunks model_id chunk_id rest with
          | nil => rw [hq] at hrec; simp at hrec
          | cons a l =>
              rw [hq] at hrec
              rw [List.getLast?_cons_cons]; exact hrec
      | messageStop sr2 => rfl
      | other =>
          have hm : BEvent.messageStop sr ∈ rest := by
            rcases List.mem_cons.mp hsr with h1 | h1
            · exact absurd h1 (by simp)
            · exact h1
          rw [bedrockStreamChunks]
          exact ih ⟨sr, hm⟩

lemma openai_terminal (extractDelta : String → String) :
    ∀ lines : List String, (∃ l ∈ lines, sseDoneLine l) →
      (openaiStreamChunks extractDelta lines).getLast?
        = some ⟨ChunkData.done, true, ""⟩ := by
  intro lines
  induction lines with
  | nil => rintro ⟨l, hl, -⟩; simp at hl
  | cons x rest ih =>
      rintro ⟨l, hl, hdone⟩
      simp only [openaiStreamChunks]
      by_cases hx : pyStrip x = "" ∨ ¬ "data:".data.isPrefixOf (pyStrip x).data
      · rw [if_pos hx]
        apply ih
        rcases List.mem_cons.mp hl with rfl | hmem
        · exfalso
          obtain ⟨h1, h2, -⟩ := hdone
          rcases hx with hx | hx
          · exact h1 hx
          · exact hx (by exact_mod_cast h2)
        · exact ⟨l, hmem, hdone⟩
      · rw [if_neg hx]
        by_cases hp : pyStrip ⟨(pyStrip x).data.drop 5⟩ = "[DONE]"
        · rw [if_pos hp]; rfl
        · rw [if_neg hp]
          rcases List.mem_cons.mp hl with rfl | hmem
          · exact absurd hdone.2.2 hp
          · have hrec := ih ⟨l, hmem, hdone⟩
            cases hq : openaiStreamChunks extractDelta rest with
            | nil => rw [hq] at hrec; simp at hrec
            | cons a t =>
                rw [hq] at hrec
                rw [List.getLast?_cons_cons]; exact hrec

/-- C2 (amended): the chunk sequence of either provider is always finite
(it is a list by construction), and it ends in a terminal chunk with
`isDone = true` and `data = "[DONE]"` provided the upstream sequence
contains a terminator — a `messageStop` event for Bedrock, a
`data: [DONE]` SSE line for OpenAI; without such an upstream terminator
the sequence simply ends with no terminal chunk. -/
theorem C2_terminal_chunk :
    (∀ (model_id chunk_id : String) (events : List BEvent),
        (∃ sr, BEvent.messageStop sr ∈ events) →
        (bedrockStreamChunks model_id chunk_id events).getLast?
          = some ⟨ChunkData.done, true, ""⟩) ∧
    (∀ (extractDelta : String → String) (lines : List String),
        (∃ l ∈ lines, sseDoneLine l) →
        (openaiStreamChunks extractDelta lines).getLast?
          = some ⟨ChunkData.done, true, ""⟩) :=
  ⟨bedrock_terminal, openai_terminal⟩

/-- C2 (witness): a Bedrock stream with one delta then `messageStop`, and
an OpenAI stream with a single `data: [DONE]` line. -/
theorem C2_witness :
    (bedrockStreamChunks "m" "c"
        [BEvent.contentBlockDelta "Hi", BEvent.messageStop "end_turn"]).getLast?
      = some ⟨ChunkData.done, true, ""⟩ ∧
    (openaiStreamChunks (fun _ => "") ["data: [DONE]"]).getLast?
      = some ⟨ChunkData.done, true, ""⟩ :=
  ⟨C2_terminal_chunk.1 "m" "c" _ ⟨"end_turn", by simp⟩,
   C2_terminal_chunk.2 _ _ ⟨"data: [DONE]", by simp, by decide⟩⟩

/-! ## Claims C5 and C10 — rate limiter -/

lemma pruneWindow_eq_dropWhile (ws : ℚ) (l : List ℚ) :
    pruneWindow ws l = l.dropWhile (fun t => decide (t < ws)) := by
  induction l with
  | nil => rfl
  | cons t rest ih =>
      by_cases h : t < ws <;> simp [pruneWindow, List.dropWhile_cons, h, ih]

/-- C5 (counterexample): one client, limit 1, window `[0]`, a check at
`now = 3/100`: the code answers `resetSeconds = 60` — the exact value
`0 + 60 − 3/100 = 59.97` rounded to one decimal — so the claimed
equality `resetSeconds = oldest + 60s − now` fails. -/
theorem C5_counterexample :
    check_rate_limit (3/100) 1 [0] = .ok (⟨false, 1, 0, 60⟩, [0]) ∧
    (60 : ℚ) ≠ 0 + WINDOW_SECONDS - 3/100 := by
  constructor
  · simp only [check_rate_limit, pruneWindow, WINDOW_SECONDS, round1]
    norm_num [List.head?]
  · norm_num [WINDOW_SECONDS]

/-- C5 (amended): for every client window and limit ≥ 1, the check first
drops from the head every timestamp older than `now − 60s`; if the pruned
window holds at least `limit` entries it returns denied with
`remaining = 0` and `resetSeconds` equal to *the one-decimal rounding of*
`oldest + 60s − now`, leaving the window as pruned (nothing appended);
otherwise it appends `now` and returns allowed with
`remaining = max(0, limit − |window|)` and `resetSeconds` the one-decimal
rounding of the time until the oldest entry expires. -/
theorem C5_check_rate_limit_spec (now : ℚ) (limit : ℤ) (window : List ℚ)
    (h : 1 ≤ limit) :
    ((limit ≤ ((window.dropWhile
          (fun t => decide (t < now - WINDOW_SECONDS))).length : ℤ)) →
      ∃ hd, (window.dropWhile
          (fun t => decide (t < now - WINDOW_SECONDS))).head? = some hd ∧
        check_rate_limit now limit window
          = .ok (⟨false, limit, 0, round1 (hd + WINDOW_SECONDS - now)⟩,
              window.dropWhile (fun t => decide (t < now - WINDOW_SECONDS)))) ∧
    ((((window.dropWhile
          (fun t => decide (t < now - WINDOW_SECONDS))).length : ℤ) < limit) →
      check_rate_limit now limit window
        = .ok (⟨true, limit,
            max 0 (limit - ((window.dropWhile
              (fun t => decide (t < now - WINDOW_SECONDS)) ++ [now]).length : ℤ)),
            round1 ((window.dropWhile
              (fun t => decide (t < now - WINDOW_SECONDS)) ++ [now]).headD now
                + WINDOW_SECONDS - now)⟩,
            window.dropWhile (fun t => decide (t < now - WINDOW_SECONDS))
              ++ [now])) := by
  have hpr := pruneWindow_eq_dropWhile (now - WINDOW_SECONDS) window
  constructor
  · intro hlen
    cases hq : window.dropWhile (fun t => decide (t < now - WINDOW_SECONDS)) with
    | nil =>
        exfalso
        rw [hq] at hlen
        simp at hlen
        omega
    | cons a tl =>
        rw [hq] at hlen
        refine ⟨a, rfl, ?_⟩
        simp only [check_rate_limit, hpr, hq]
        rw [if_pos hlen]
        rfl
  · intro hlen
    simp only [check_rate_limit, hpr]
    rw [if_neg (by omega)]
    cases hq : window.dropWhile (fun t => decide (t < now - WINDOW_SECONDS)) with
    | nil => rfl
    | cons a tl => rfl

/-- C5 (witness): the denied branch of the amended theorem at `now = 100`,
limit 2, window `[50, 90]`. -/
theorem C5_witness :
    ∃ hd, ([(50 : ℚ), 90].dropWhile
        (fun t => decide (t < 100 - WINDOW_SECONDS))).head? = some hd ∧
      check_rate_limit 100 2 [50, 90]
        = .ok (⟨false, 2, 0, round1 (hd + WINDOW_SECONDS - 100)⟩,
            [(50 : ℚ), 90].dropWhile
              (fun t => decide (t < 100 - WINDOW_SECONDS))) :=
  (C5_check_rate_limit_spec 100 2 [50, 90] (by norm_num)).1
    (by norm_num [List.dropWhile, WINDOW_SECONDS])

/-- C10 (theorem): with a positive limit, a rate-limit check never hits
the empty-window head access: it always returns a result. -/
theorem C10_check_rate_limit_total (now : ℚ) (limit : ℤ) (window : List ℚ)
    (h : 1 ≤ limit) :
    ∃ r w2, check_rate_limit now limit window = .ok (r, w2) := by
  simp only [check_rate_limit]
  split
  · rename_i hlen
    cases hq : (pruneWindow (now - WINDOW_SECONDS) window).head? with
    | none =>
        exfalso
        rw [List.head?_eq_none_iff] at hq
        rw [hq] at hlen
        simp at hlen
        omega
    | some a => exact ⟨_, _, rfl⟩
  · exact ⟨_, _, rfl⟩

/-- C10 (witness): the theorem at `now = 100`, limit 1, empty window. -/
theorem C10_witness : ∃ r w2, check_rate_limit 100 1 [] = .ok (r, w2) :=
  C10_check_rate_limit_total 100 1 [] (by norm_num)

/-! ## Claim C6 — redact replacement -/

lemma replaceFirstUser_no_user (r : String) :
    ∀ l : List Message, (∀ m ∈ l, m.role ≠ "user") →
      replaceFirstUser r l = l := by
  intro l
  induction l with
  | nil => intro _; rfl
  | cons m rest ih =>
      intro hall
      have hm : m.role ≠ "user" := hall m (by simp)
      simp only [replaceFirstUser, if_neg hm]
      rw [ih (fun x hx => hall x (by simp [hx]))]

lemma replaceFirstUser_found (r : String) (m : Message) (hm : m.role = "user") :
    ∀ a b : List Message, (∀ x ∈ a, x.role ≠ "user") →
      replaceFirstUser r (a ++ m :: b)
        = a ++ { m with content := MsgContent.str r } :: b := by
  intro a
  induction a with
  | nil =>
      intro b _
      simp only [List.nil_append, replaceFirstUser, if_pos hm]
  | cons x xs ih =>
      intro b hall
      have hx : x.role ≠ "user" := hall x (by simp)
      simp only [List.cons_append, replaceFirstUser, if_neg hx, List.append_eq]
      rw [ih b (fun y hy => hall y (by simp [hy]))]

/-- C6 (counterexample): when the last user message's content is a
multi-part list, the replaced content is the redacted text as a plain
string — not the multi-part list with its textual parts substituted — so
the claimed shape preservation fails. -/
theorem C6_counterexample :
    replace_prompt_content
        [⟨"user", MsgContent.parts [⟨"text", "a@b.co"⟩]⟩] "[REDACTED_EMAIL]"
      = [⟨"user", MsgContent.str "[REDACTED_EMAIL]"⟩] ∧
    (∀ l : List ContentPart,
      MsgContent.str "[REDACTED_EMAIL]" ≠ MsgContent.parts l) :=
  ⟨rfl, fun _ h => MsgContent.noConfusion h⟩

/-- C6 (amended): `_replace_prompt_content` replaces the last user
message's content with the redacted text *as a single plain string*
(even when the original content was a multi-part list), leaves every
other message unchanged, and leaves the body unchanged when no user
message exists.  (The redacted text handed to it by the pipeline is the
redaction of the newline-joined prompt extracted from all messages, not
of that message's content alone.) -/
theorem C6_replace_last_user (r : String) :
    (∀ (pre post : List Message) (m : Message),
        m.role = "user" → (∀ x ∈ post, x.role ≠ "user") →
        replace_prompt_content (pre ++ m :: post) r
          = pre ++ { m with content := MsgContent.str r } :: post) ∧
    (∀ msgs : List Message, (∀ x ∈ msgs, x.role ≠ "user") →
        replace_prompt_content msgs r = msgs) := by
  constructor
  · intro pre post m hm hpost
    unfold replace_prompt_content
    have hrev : (pre ++ m :: post).reverse
        = post.reverse ++ m :: pre.reverse := by
      simp [List.reverse_append]
    rw [hrev,
      replaceFirstUser_found r m hm post.reverse pre.reverse
        (fun x hx => hpost x (List.mem_reverse.mp hx))]
    simp [List.reverse_append]
  · intro msgs hall
    unfold replace_prompt_content
    rw [replaceFirstUser_no_user r msgs.reverse
      (fun x hx => hall x (List.mem_reverse.mp hx))]
    simp

/-- C6 (witness): the spec's scenario S3 shape — a system message then a
user message whose string content is swapped for the redacted string. -/
theorem C6_witness :
    replace_prompt_content
        [⟨"system", MsgContent.str "You are helpful."⟩,
         ⟨"user", MsgContent.str "My email is user@example.com"⟩]
        "My email is [REDACTED_EMAIL]"
      = [⟨"system", MsgContent.str "You are helpful."⟩,
         ⟨"user", MsgContent.str "My email is [REDACTED_EMAIL]"⟩] :=
  (C6_replace_last_user "My email is [REDACTED_EMAIL]").1
    [⟨"system", MsgContent.str "You are helpful."⟩] []
    ⟨"user", MsgContent.str "My email is user@example.com"⟩ rfl (by simp)

/-! ## Claim C4 — X-Request-Id header -/

/-- C4 (counterexample): a rate-limited request receives the 429 response
whose headers (`Retry-After` and the three rate-limit headers) carry no
`X-Request-Id`, although its audit record carries the generated id. -/
theorem C4_counterexample :
    ((chat_completions ⟨"redact", "log_only", 7/10⟩ "req-001"
        { client_id := "c", api_key := "k" }
        ⟨[], none, false, none, none, none, none⟩
        ⟨false, 60, 0, 1⟩ [] [] false 200 "" [] []).headers.lookup
          "X-Request-Id" = none) ∧
    (chat_completions ⟨"redact", "log_only", 7/10⟩ "req-001"
        { client_id := "c", api_key := "k" }
        ⟨[], none, false, none, none, none, none⟩
        ⟨false, 60, 0, 1⟩ [] [] false 200 "" [] []).audit_request_id
      = "req-001" ∧
    (chat_completions ⟨"redact", "log_only", 7/10⟩ "req-001"
        { client_id := "c", api_key := "k" }
        ⟨[], none, false, none, none, none, none⟩
        ⟨false, 60, 0, 1⟩ [] [] false 200 "" [] []).status = 429 :=
  ⟨rfl, rfl, rfl⟩

/-- C4 (amended): exactly the dispatched responses — the streaming
response and the non-blocked non-streaming upstream passthrough — carry
an `X-Request-Id` header, equal to the request id carried by the
request's audit record; the early policy, throttle and blocking JSON
responses (429 rate limit, 403 allowlist, and the 400s) carry none. -/
theorem C4_request_id_header (s : Settings) (rid : String)
    (client : ClientConfig) (body : ChatBody) (rate : RateLimitResult)
    (injHits : List ℕ) (piiMatches : List (List String)) (is_lambda : Bool)
    (upstream_status : ℤ) (respContent : String) (respInjHits : List ℕ)
    (respPiiMatches : List (List String)) :
    (chat_completions s rid client body rate injHits piiMatches is_lambda
        upstream_status respContent respInjHits respPiiMatches).headers.lookup
        "X-Request-Id"
      = (if (chat_completions s rid client body rate injHits piiMatches
              is_lambda upstream_status respContent respInjHits
              respPiiMatches).is_sse = true ∨
            (chat_completions s rid client body rate injHits piiMatches
              is_lambda upstream_status respContent respInjHits
              respPiiMatches).errorMsg = none
         then some (chat_completions s rid client body rate injHits piiMatches
              is_lambda upstream_status respContent respInjHits
              respPiiMatches).audit_request_id
         else none) := by
  by_cases h1 : rate.allowed = false
  · simp [chat_completions, h1, List.lookup]
  · by_cases h2 : client.model_allowlist ≠ [] ∧
        body.model.getD "unknown" ∉ client.model_allowlist
    · simp [chat_completions, h1, h2, List.lookup]
    · by_cases h3 : (scan_prompt s (extract_prompt_content body.messages)
          injHits).allowed = false
      · simp [chat_completions, h1, h2, h3, List.lookup]
      · by_cases h4 : (scan_for_pii s (extract_prompt_content body.messages)
              piiMatches).clean = false ∧
            (scan_for_pii s (extract_prompt_content body.messages)
              piiMatches).redacted_content = none ∧
            0 < (scan_for_pii s (extract_prompt_content body.messages)
              piiMatches).detection_count ∧
            s.pii_action = "block"
        · simp [chat_completions, h1, h2, h3, h4, List.lookup]
        · by_cases h5 : body.stream = true ∧ is_lambda = true
          · simp [chat_completions, h1, h2, h3, h4, h5, List.lookup]
          · by_cases h6 : body.stream = true
            · have h5l : is_lambda = false := by
                cases hl : is_lambda
                · rfl
                · exact absurd ⟨h6, hl⟩ h5
              simp [chat_completions, h1, h2, h3, h4, h5l, h6, List.lookup,
                rlHeaders]
            · by_cases h7 : (scan_response s respContent respInjHits
                  respPiiMatches).blocked = true
              · simp [chat_completions, h1, h2, h3, h4, h5, h6, h7,
                  List.lookup]
              · simp [chat_completions, h1, h2, h3, h4, h5, h6, h7,
                  List.lookup, rlHeaders]

/-! ## Claim C8 — client store failure semantics -/

/-- C8 (counterexample): a backing file that exists (mtime 1) but does
not parse makes the lookup raise (`Except.error`) instead of returning
"no record". -/
theorem C8_counterexample :
    get_by_api_key (some (1, none)) ⟨[], 0⟩ "key-aaa-111" = .error () ∧
    (∀ v : Option ClientConfig × JSONStoreState,
      get_by_api_key (some (1, none)) ⟨[], 0⟩ "key-aaa-111" ≠ .ok v) :=
  ⟨rfl, fun _ h => Except.noConfusion h⟩

/-- C8 (amended): only a *stat* failure of the backing file (missing
file) is absorbed: the lookup then returns no record.  A file that
exists but cannot be parsed makes the lookup raise whenever a reload is
attempted (here: with an empty record cache), which would surface as a
5xx. -/
theorem C8_store_failure_semantics :
    (∀ (st : JSONStoreState) (api_key : String),
        get_by_api_key none st api_key = .ok (none, ⟨[], st.last_mtime⟩)) ∧
    (∀ (t : ℚ) (st : JSONStoreState) (api_key : String), st.clients = [] →
        get_by_api_key (some (t, none)) st api_key = .error ()) := by
  constructor
  · intro st k; rfl
  · intro t st k h
    simp [get_by_api_key, store_load, h]

/-- C8 (witness): the amended theorem at a missing file and at an
unparsable file. -/
theorem C8_witness :
    get_by_api_key none ⟨[], 5⟩ "k" = .ok (none, ⟨[], 5⟩) ∧
    get_by_api_key (some (2, none)) ⟨[], 0⟩ "k" = .error () :=
  ⟨C8_store_failure_semantics.1 ⟨[], 5⟩ "k",
   C8_store_failure_semantics.2 2 ⟨[], 0⟩ "k" rfl⟩

end Gateway
